import Mathlib

/-!
Verification of the ai-risk-engine event-governance pipeline.

The repository ships its unit and chaos tests together with a thin adapter;
the workflow engine, domain model and governance registries referenced by
those tests are modelled here from the specification (spec.md) and checked
against the behaviour the tests pin down.
-/

namespace AiRiskEngine

/-- Substring containment on strings, computed over the underlying
character lists. -/
def strContains (hay needle : String) : Bool :=
  decide (needle.data <:+: hay.data)

/-! ## Domain model: event statuses and the transition matrix -/

/-- Modelled from the spec: the closed EventStatus enum of
app/domain/models/event.py (file not shipped under src; values are pinned
by tests/unit/domain/test_event_models.py::test_event_status_values). -/
inductive EventStatus
  | received
  | created
  | validated
  | processing
  | approved
  | rejected
  | failed
deriving DecidableEq, Repr

/-- String value of each EventStatus member, as asserted by the tests. -/
def statusValue : EventStatus → String
  | .received => "received"
  | .created => "created"
  | .validated => "validated"
  | .processing => "processing"
  | .approved => "approved"
  | .rejected => "rejected"
  | .failed => "failed"

/-- The canonical status-transition matrix, transcribed from
tests/unit/domain/test_event_models.py (_EXPECTED_STATUS_TRANSITIONS),
which the repository declares the single source of truth. -/
def allowed_transitions : EventStatus → List EventStatus
  | .received => [.validated, .rejected]
  | .created => [.validated, .rejected]
  | .validated => [.processing]
  | .processing => [.approved, .rejected, .failed]
  | .approved => []
  | .rejected => []
  | .failed => []

/-- The section-3 matrix of spec.md, written directly as a Boolean relation
so that the implementation matrix can be compared against it. -/
def statusMatrixSpec (f t : EventStatus) : Bool :=
  match f, t with
  | .received, .validated => true
  | .received, .rejected => true
  | .created, .validated => true
  | .created, .rejected => true
  | .validated, .processing => true
  | .processing, .approved => true
  | .processing, .rejected => true
  | .processing, .failed => true
  | _, _ => false

/-- Modelled from the spec: BaseEvent of app/domain/models/event.py
(file not shipped under src). Metadata is kept as an association list;
the timestamp is an abstract tick. -/
structure BaseEvent where
  event_id : String
  tenant_id : String
  status : EventStatus
  created_at : Nat
  metadata : Option (List (String × String))
deriving DecidableEq, Repr

/-- Error message of an invalid status transition; it embeds both status
names as the tests require. -/
def transitionErrMsg (f t : EventStatus) : String :=
  "Invalid status transition from " ++ statusValue f ++ " to " ++ statusValue t

/-- Result of transition_to: the (possibly) updated entity together with
the raised error, if any. In the Python source the entity is mutated in
place; here the post-call entity is returned explicitly. -/
structure TransitionResult where
  error : Option String
  event : BaseEvent
deriving DecidableEq, Repr

/-- Modelled from the spec: BaseEvent.transition_to of
app/domain/models/event.py (file not shipped under src). An allowed
transition updates the status; any other pair raises
InvalidStatusTransitionError with both status names in the message and
leaves the entity unchanged. -/
def transition_to (ev : BaseEvent) (t : EventStatus) : TransitionResult :=
  if t ∈ allowed_transitions ev.status then
    { error := none, event := { ev with status := t } }
  else
    { error := some (transitionErrMsg ev.status t), event := ev }

/-! ## Exceptions and the failure classifier -/

/-- Modelled from the spec: the closed exception taxonomy observed at the
workflow boundary (app/domain/exceptions.py, app/application/exceptions.py,
app/governance/exceptions.py are not shipped under src). -/
inductive Exc
  | domainValidationError (msg : String)
  | idempotencyConflictError (msg : String)
  | modelNotApprovedError (msg : String)
  | promptNotApprovedError (msg : String)
  | otherError (msg : String)
deriving DecidableEq, Repr

/-- Failure categories of the observability layer. -/
inductive FailureCategory
  | VALIDATION_ERROR
  | WORKFLOW_ERROR
  | GOVERNANCE_ERROR
  | UNKNOWN_ERROR
deriving DecidableEq, Repr

/-- String value of a failure category, used as a metric label. -/
def FailureCategory.value : FailureCategory → String
  | .VALIDATION_ERROR => "VALIDATION_ERROR"
  | .WORKFLOW_ERROR => "WORKFLOW_ERROR"
  | .GOVERNANCE_ERROR => "GOVERNANCE_ERROR"
  | .UNKNOWN_ERROR => "UNKNOWN_ERROR"

/-- Modelled from the spec: FailureClassifier.classify of
app/observability/failure_classifier.py (file not shipped under src);
the mapping table is section 4.5 of spec.md, corroborated by
tests/chaos/test_chaos_workflow_failures.py. -/
def classify : Exc → FailureCategory
  | .domainValidationError _ => .VALIDATION_ERROR
  | .idempotencyConflictError _ => .WORKFLOW_ERROR
  | .modelNotApprovedError _ => .GOVERNANCE_ERROR
  | .promptNotApprovedError _ => .GOVERNANCE_ERROR
  | .otherError _ => .UNKNOWN_ERROR

/-! ## Governance registries -/

/-- Status of a registry record. -/
inductive RecordStatus
  | REGISTERED
  | APPROVED
  | DEPRECATED
deriving DecidableEq, Repr

/-- Modelled from the spec: ModelRecord of app/governance/model_registry.py
(file not shipped under src). -/
structure ModelRecord where
  model_name : String
  version : String
  checksum : String
  status : RecordStatus
deriving DecidableEq, Repr

/-- Modelled from the spec: PromptRecord of
app/governance/prompt_registry.py (file not shipped under src). -/
structure PromptRecord where
  prompt_name : String
  version : Nat
  template : String
  status : RecordStatus
deriving DecidableEq, Repr

/-- Whether the model registry holds an APPROVED record for a name. -/
def modelIsApproved (reg : List ModelRecord) (name : String) : Bool :=
  reg.any fun r => r.model_name == name && r.status == RecordStatus.APPROVED

/-- Whether the prompt registry holds an APPROVED record for a name. -/
def promptIsApproved (reg : List PromptRecord) (name : String) : Bool :=
  reg.any fun r => r.prompt_name == name && r.status == RecordStatus.APPROVED

/-! ## Workflow states -/

/-- Modelled from the spec: the raw_event mapping consumed by the
workflows, reduced to the two accessors the stages read
(raw_event.event_type and raw_event.metadata.category). -/
structure RawEvent where
  event_type : Option String := none
  category : Option String := none
deriving DecidableEq, Repr

/-- One stage-audit entry of a workflow state audit trail. -/
structure AuditEntry where
  node : String
  action : String
  correlation_id : String
deriving DecidableEq, Repr

/-- Modelled from the spec: RiskState of
app/workflows/langgraph/state_models.py (file not shipped under src).
Scores are exact rationals; every score the stages produce is integral. -/
structure RiskState where
  event_id : String
  tenant_id : String
  correlation_id : String
  raw_event : RawEvent := {}
  model_version : Option String := none
  prompt_version : Option Nat := none
  retrieved_context : Option String := none
  policy_result : Option String := none
  risk_score : Option ℚ := none
  guardrail_result : Option String := none
  final_decision : Option String := none
  audit_trail : List AuditEntry := []
deriving DecidableEq, Repr

/-- Modelled from the spec: ComplianceState of
app/workflows/langgraph/state_models.py (file not shipped under src). -/
structure ComplianceState where
  event_id : String
  tenant_id : String
  correlation_id : String
  raw_event : RawEvent := {}
  regulatory_flags : List String := []
  risk_score : Option ℚ := none
  policy_result : Option String := none
  approval_required : Bool := false
  final_decision : Option String := none
  audit_trail : List AuditEntry := []
deriving DecidableEq, Repr

/-! ## Risk workflow stages (section 4.8 of spec.md) -/

/-- Modelled from the spec: the retrieval stage, a deterministic stub
echoing the event type into retrieved_context and appending a
CONTEXT_RETRIEVED audit entry. -/
def retrieve_context (s : RiskState) : RiskState :=
  { s with
    retrieved_context := some ("context:" ++ s.raw_event.event_type.getD "unknown"),
    audit_trail := s.audit_trail ++
      [⟨"retrieval", "CONTEXT_RETRIEVED", s.correlation_id⟩] }

/-- Modelled from the spec: the policy_validation stage; category
"sensitive" fails the policy, anything else passes. -/
def policy_validation (s : RiskState) : RiskState :=
  { s with
    policy_result :=
      some (if s.raw_event.category == some "sensitive" then "FAIL" else "PASS"),
    audit_trail := s.audit_trail ++
      [⟨"policy_validation", "POLICY_EVALUATED", s.correlation_id⟩] }

/-- Deterministic risk score of an event type (section 4.8 of spec.md):
high_risk scores 85, low_risk 15, everything else (standard included, and
an absent type) falls through to the default 30. -/
def riskScoreOf (et : Option String) : ℚ :=
  if et == some "high_risk" then 85
  else if et == some "low_risk" then 15
  else 30

/-- Modelled from the spec: the risk_scoring stage. -/
def risk_scoring (s : RiskState) : RiskState :=
  { s with
    risk_score := some (riskScoreOf s.raw_event.event_type),
    audit_trail := s.audit_trail ++
      [⟨"risk_scoring", "RISK_SCORED", s.correlation_id⟩] }

/-- Modelled from the spec: the guardrails stage; OK when the score is at
most 90, VIOLATION above. -/
def guardrails (s : RiskState) : RiskState :=
  { s with
    guardrail_result :=
      some (if s.risk_score.getD 0 ≤ 90 then "OK" else "VIOLATION"),
    audit_trail := s.audit_trail ++
      [⟨"guardrails", "GUARDRAIL_CHECKED", s.correlation_id⟩] }

/-- Modelled from the spec: the risk decision stage, a first-match
aggregation over guardrail_result, policy_result and risk_score. -/
def risk_decision (s : RiskState) : RiskState :=
  { s with
    final_decision :=
      some (if s.guardrail_result == some "VIOLATION" then "REJECTED"
        else if s.policy_result == some "FAIL" then "REQUIRE_APPROVAL"
        else if (70 : ℚ) ≤ s.risk_score.getD 0 then "REQUIRE_APPROVAL"
        else "APPROVED"),
    audit_trail := s.audit_trail ++
      [⟨"decision", "DECISION_MADE", s.correlation_id⟩] }

/-- Final state of the five-stage risk chain on a given input state. -/
def riskFinal (s : RiskState) : RiskState :=
  risk_decision (guardrails (risk_scoring (policy_validation (retrieve_context s))))

/-! ## Compliance workflow stages (section 4.9 of spec.md) -/

/-- Modelled from the spec: the flag_check stage; non-empty
regulatory_flags force approval_required to true. -/
def flag_check (s : ComplianceState) : ComplianceState :=
  { s with
    approval_required :=
      if s.regulatory_flags.isEmpty then s.approval_required else true,
    audit_trail := s.audit_trail ++
      [⟨"flag_check", "FLAGS_EVALUATED", s.correlation_id⟩] }

/-- Deterministic compliance score of an event type (section 4.9 of
spec.md): low_risk scores 15, standard 40, everything else 50. -/
def complianceScoreOf (et : Option String) : ℚ :=
  if et == some "low_risk" then 15
  else if et == some "standard" then 40
  else 50

/-- Modelled from the spec: the compliance policy stage; the policy fails
only when the just-computed score reaches 80. -/
def compliance_policy (s : ComplianceState) : ComplianceState :=
  { s with
    risk_score := some (complianceScoreOf s.raw_event.event_type),
    policy_result :=
      some (if (80 : ℚ) ≤ complianceScoreOf s.raw_event.event_type then "FAIL" else "PASS"),
    audit_trail := s.audit_trail ++
      [⟨"policy", "COMPLIANCE_POLICY_EVALUATED", s.correlation_id⟩] }

/-- Modelled from the spec: the compliance decision stage, first match
over approval_required and policy_result. -/
def compliance_decision (s : ComplianceState) : ComplianceState :=
  if s.approval_required then
    { s with
      final_decision := some "REQUIRE_APPROVAL",
      audit_trail := s.audit_trail ++
        [⟨"decision", "COMPLIANCE_DECISION_MADE", s.correlation_id⟩] }
  else if s.policy_result == some "FAIL" then
    { s with
      final_decision := some "REJECTED",
      audit_trail := s.audit_trail ++
        [⟨"decision", "COMPLIANCE_DECISION_MADE", s.correlation_id⟩] }
  else
    { s with
      final_decision := some "APPROVED",
      approval_required := false,
      audit_trail := s.audit_trail ++
        [⟨"decision", "COMPLIANCE_DECISION_MADE", s.correlation_id⟩] }

/-- Final state of the three-stage compliance chain on a given input. -/
def complianceFinal (s : ComplianceState) : ComplianceState :=
  compliance_decision (compliance_policy (flag_check s))

/-! ## Workflow engine (section 4.7 of spec.md)

The engine is modelled as a function from an input state and the injected
collaborators to the ordered trace of its observable effects: state-store
reads and writes, audit-logger calls, stage executions, metric increments,
and the final return or raise. -/

/-- One log_action call on the audit logger. -/
structure AuditCall where
  action : String
  tenant_id : String
  correlation_id : String
  resource_type : String
  resource_id : String
  reason : String
deriving DecidableEq, Repr

/-- Observable effects of one engine run, in order of occurrence. -/
inductive EngineEvent (σ : Type)
  | getState (event_id : String) (cached : Option σ)
  | logAction (call : AuditCall)
  | stageStart (node : String)
  | metricInc (counter : String)
  | metricIncLabeled (counter : String) (labels : List (String × String))
  | setState (event_id : String) (st : σ)
  | ret (st : σ)
  | raise (e : Exc)
deriving DecidableEq

/-- The audit call emitted on a governance-gate failure; its reason
contains both the word unapproved and the resource name. -/
def govAudit (t c rtype rid : String) : AuditCall :=
  { action := "GOVERNANCE_VIOLATION", tenant_id := t, correlation_id := c,
    resource_type := rtype, resource_id := rid,
    reason := "unapproved " ++ rtype ++ ": " ++ rid }

/-- Whether a configured model registry blocks the gate for a name. -/
def modelGateBlocked : Option (List ModelRecord) → String → Bool
  | none, _ => false
  | some reg, n => !(modelIsApproved reg n)

/-- Whether a configured prompt registry blocks the gate for a name. -/
def promptGateBlocked : Option (List PromptRecord) → String → Bool
  | none, _ => false
  | some reg, n => !(promptIsApproved reg n)

/-- Trace suffix of the engine success path: increment
workflow_execution_count, write the state store when one is configured,
return the final state. -/
def successFin {σ : Type} (store : Option (String → Option σ)) (eid : String)
    (fin : σ) : List (EngineEvent σ) :=
  EngineEvent.metricInc "workflow_execution_count" ::
    match store with
    | some _ => [EngineEvent.setState eid fin, EngineEvent.ret fin]
    | none => [EngineEvent.ret fin]

/-- Modelled from the spec: the engine stage chain. Each stage is a named
fallible transform; a raising stage makes the engine increment the
labeled failure_count once (category from the classifier, workflow name)
and re-raise the same exception. -/
def runStages {σ : Type} (wf : String) (fin : σ → List (EngineEvent σ)) :
    List (String × (σ → Except Exc σ)) → σ → List (EngineEvent σ)
  | [], s => fin s
  | (n, f) :: rest, s =>
    EngineEvent.stageStart n ::
      match f s with
      | Except.error e =>
        [EngineEvent.metricIncLabeled "failure_count"
          [("category", (classify e).value), ("workflow", wf)],
         EngineEvent.raise e]
      | Except.ok s2 => runStages wf fin rest s2

/-- Pure result of a stage chain: the final state, or the first raised
exception. -/
def chainEval {σ : Type} : List (String × (σ → Except Exc σ)) → σ → Except Exc σ
  | [], s => Except.ok s
  | (_, f) :: rest, s =>
    match f s with
    | Except.error e => Except.error e
    | Except.ok s2 => chainEval rest s2

/-- Modelled from the spec: the engine body after the idempotency read:
governance gates (model first, then prompt; each emits a
GOVERNANCE_VIOLATION audit and raises), then the stage chain and the
success path. -/
def runBody {σ : Type} (store : Option (String → Option σ))
    (mReg : Option (List ModelRecord)) (pReg : Option (List PromptRecord))
    (modelName promptName wf : String)
    (stages : List (String × (σ → Except Exc σ)))
    (eid t c : String) (s : σ) : List (EngineEvent σ) :=
  if modelGateBlocked mReg modelName then
    [EngineEvent.logAction (govAudit t c "model" modelName),
     EngineEvent.raise (Exc.modelNotApprovedError ("unapproved model: " ++ modelName))]
  else if promptGateBlocked pReg promptName then
    [EngineEvent.logAction (govAudit t c "prompt" promptName),
     EngineEvent.raise (Exc.promptNotApprovedError ("unapproved prompt: " ++ promptName))]
  else
    runStages wf (successFin store eid) stages s

/-- Modelled from the spec: the full engine skeleton of
app/workflows/langgraph (files not shipped under src): idempotency read
with early return on a cache hit, then the gated body. -/
def runEngine {σ : Type} (store : Option (String → Option σ))
    (mReg : Option (List ModelRecord)) (pReg : Option (List PromptRecord))
    (modelName promptName wf : String)
    (stages : List (String × (σ → Except Exc σ)))
    (eid t c : String) (s : σ) : List (EngineEvent σ) :=
  match store with
  | none => runBody none mReg pReg modelName promptName wf stages eid t c s
  | some g =>
    EngineEvent.getState eid (g eid) ::
      match g eid with
      | some cached => [EngineEvent.ret cached]
      | none => runBody (some g) mReg pReg modelName promptName wf stages eid t c s

/-- The risk workflow stage list. -/
def riskStages : List (String × (RiskState → Except Exc RiskState)) :=
  [("retrieval", fun s => Except.ok (retrieve_context s)),
   ("policy_validation", fun s => Except.ok (policy_validation s)),
   ("risk_scoring", fun s => Except.ok (risk_scoring s)),
   ("guardrails", fun s => Except.ok (guardrails s)),
   ("decision", fun s => Except.ok (risk_decision s))]

/-- The compliance workflow stage list. -/
def complianceStages : List (String × (ComplianceState → Except Exc ComplianceState)) :=
  [("flag_check", fun s => Except.ok (flag_check s)),
   ("policy", fun s => Except.ok (compliance_policy s)),
   ("decision", fun s => Except.ok (compliance_decision s))]

/-- Modelled from the spec: RiskWorkflow.run of
app/workflows/langgraph/risk_workflow.py (file not shipped under src),
as the trace of its observable effects. -/
def runRisk (store : Option (String → Option RiskState))
    (mReg : Option (List ModelRecord)) (pReg : Option (List PromptRecord))
    (s : RiskState) : List (EngineEvent RiskState) :=
  runEngine store mReg pReg "risk-model" "risk-prompt" "risk" riskStages
    s.event_id s.tenant_id s.correlation_id s

/-- Modelled from the spec: ComplianceWorkflow.run of
app/workflows/langgraph/compliance_workflow.py (file not shipped under
src), as the trace of its observable effects. -/
def runCompliance (store : Option (String → Option ComplianceState))
    (mReg : Option (List ModelRecord)) (pReg : Option (List PromptRecord))
    (s : ComplianceState) : List (EngineEvent ComplianceState) :=
  runEngine store mReg pReg "compliance-model" "compliance-prompt" "compliance"
    complianceStages s.event_id s.tenant_id s.correlation_id s

/-! ## Trace observations -/

/-- The state a trace returns, when it ends in a normal return. -/
def retOf {σ : Type} (t : List (EngineEvent σ)) : Option σ :=
  match t.getLast? with
  | some (EngineEvent.ret s) => some s
  | _ => none

/-- Number of failure_count metric increments in a trace. -/
def countFailureIncs {σ : Type} (t : List (EngineEvent σ)) : Nat :=
  t.countP fun ev =>
    match ev with
    | EngineEvent.metricIncLabeled n _ => n == "failure_count"
    | _ => false

/-- Number of raised exceptions recorded in a trace. -/
def countRaises {σ : Type} (t : List (EngineEvent σ)) : Nat :=
  t.countP fun ev =>
    match ev with
    | EngineEvent.raise _ => true
    | _ => false

/-- Number of workflow_execution_count increments in a trace. -/
def countExecIncs {σ : Type} (t : List (EngineEvent σ)) : Nat :=
  t.countP fun ev =>
    match ev with
    | EngineEvent.metricInc n => n == "workflow_execution_count"
    | _ => false

/-- Number of setState calls in a trace. -/
def countSetStates {σ : Type} (t : List (EngineEvent σ)) : Nat :=
  t.countP fun ev =>
    match ev with
    | EngineEvent.setState _ _ => true
    | _ => false

/-- Number of log_action calls in a trace. -/
def countLogActions {σ : Type} (t : List (EngineEvent σ)) : Nat :=
  t.countP fun ev =>
    match ev with
    | EngineEvent.logAction _ => true
    | _ => false

/-- The stage-start events of the risk chain, in order. -/
def riskStageStarts : List (EngineEvent RiskState) :=
  [EngineEvent.stageStart "retrieval",
   EngineEvent.stageStart "policy_validation",
   EngineEvent.stageStart "risk_scoring",
   EngineEvent.stageStart "guardrails",
   EngineEvent.stageStart "decision"]

/-- The stage-start events of the compliance chain, in order. -/
def complianceStageStarts : List (EngineEvent ComplianceState) :=
  [EngineEvent.stageStart "flag_check",
   EngineEvent.stageStart "policy",
   EngineEvent.stageStart "decision"]

/-- The idempotency-read events a run performs when the lookup misses:
one getState on a configured store, nothing otherwise. -/
def getMissEvents {σ : Type} (store : Option (String → Option σ)) (eid : String) :
    List (EngineEvent σ) :=
  match store with
  | none => []
  | some _ => [EngineEvent.getState eid none]

/-- Hypothesis shape: a configured store misses on an event id. -/
def storeMissAt {σ : Type} (store : Option (String → Option σ)) (eid : String) : Prop :=
  ∀ g, store = some g → g eid = none

/-- Hypothesis shape: a configured model registry approves a name. -/
def modelGateOk (mReg : Option (List ModelRecord)) (name : String) : Prop :=
  ∀ reg, mReg = some reg → modelIsApproved reg name = true

/-- Hypothesis shape: a configured prompt registry approves a name. -/
def promptGateOk (pReg : Option (List PromptRecord)) (name : String) : Prop :=
  ∀ reg, pReg = some reg → promptIsApproved reg name = true

/-! ## Concrete inputs taken from the repository tests -/

/-- Scenario S1: a standard event with normal category. -/
def exStdNormal : RiskState :=
  { event_id := "e1", tenant_id := "t1", correlation_id := "c1",
    raw_event := { event_type := some "standard", category := some "normal" } }

/-- Scenario S2: a standard event with sensitive category. -/
def exSensitive : RiskState :=
  { event_id := "e2", tenant_id := "t1", correlation_id := "c2",
    raw_event := { event_type := some "standard", category := some "sensitive" } }

/-- Scenario S3: a high_risk event. -/
def exHighRisk : RiskState :=
  { event_id := "e3", tenant_id := "t1", correlation_id := "c3",
    raw_event := { event_type := some "high_risk" } }

/-- Scenario S4: a compliance event carrying a GDPR flag. -/
def exGdpr : ComplianceState :=
  { event_id := "e1", tenant_id := "t1", correlation_id := "c1",
    raw_event := { event_type := some "low_risk" }, regulatory_flags := ["GDPR"] }

/-- Scenario S5: a low-risk compliance event with no flags. -/
def exLowRisk : ComplianceState :=
  { event_id := "e2", tenant_id := "t1", correlation_id := "c2",
    raw_event := { event_type := some "low_risk", category := some "normal" } }

/-- Scenario S7: the cached state stored under event id e4. -/
def exCachedRisk : RiskState :=
  { event_id := "e4", tenant_id := "t1", correlation_id := "c4",
    final_decision := some "APPROVED", risk_score := some 20,
    audit_trail := [⟨"decision", "decision_made", "c4"⟩] }

/-- The fresh input state submitted for event id e4. -/
def exRiskInput : RiskState :=
  { event_id := "e4", tenant_id := "t1", correlation_id := "c4" }

/-- A fresh compliance input state, event id e4. -/
def exComplianceInput : ComplianceState :=
  { event_id := "e4", tenant_id := "t1", correlation_id := "c4" }

/-- The cached compliance state stored under event id e4. -/
def exCachedCompliance : ComplianceState :=
  { event_id := "e4", tenant_id := "t1", correlation_id := "c4",
    final_decision := some "APPROVED",
    audit_trail := [⟨"decision", "COMPLIANCE_DECISION_MADE", "c4"⟩] }

/-- The chaos test input: an unrecognized event type. -/
def exChaos : RiskState :=
  { event_id := "chaos-1", tenant_id := "t1", correlation_id := "c1",
    raw_event := { event_type := some "chaos" },
    model_version := some "simulated@1", prompt_version := some 1 }

/-- A model registry holding risk-model 1.0 in REGISTERED state only. -/
def exRegisteredRiskModel : List ModelRecord :=
  [{ model_name := "risk-model", version := "1.0", checksum := "abc",
     status := RecordStatus.REGISTERED }]

/-- A model registry holding compliance-model 1.0 in REGISTERED state only. -/
def exRegisteredComplianceModel : List ModelRecord :=
  [{ model_name := "compliance-model", version := "1.0", checksum := "x",
     status := RecordStatus.REGISTERED }]

/-- An empty prompt registry: no record, nothing approved. -/
def exEmptyPromptReg : List PromptRecord := []

/-! ## Helper lemmas -/

/-- The implementation transition matrix agrees with the section-3 table. -/
lemma mem_allowed_iff_spec (f t : EventStatus) :
    t ∈ allowed_transitions f ↔ statusMatrixSpec f t = true := by
  cases f <;> cases t <;> decide

/-- Every transition error message contains both status names. -/
lemma errMsg_contains (f t : EventStatus) :
    strContains (transitionErrMsg f t) (statusValue f) = true ∧
      strContains (transitionErrMsg f t) (statusValue t) = true := by
  cases f <;> cases t <;> exact ⟨by decide, by decide⟩

/-- Risk scores produced by the scoring rule never exceed 90. -/
lemma riskScoreOf_le (et : Option String) : riskScoreOf et ≤ 90 := by
  unfold riskScoreOf
  split_ifs <;> norm_num

/-- Compliance scores produced by the policy rule stay below 80. -/
lemma complianceScoreOf_lt (et : Option String) : complianceScoreOf et < 80 := by
  unfold complianceScoreOf
  split_ifs <;> norm_num

/-- A passing model gate never blocks. -/
lemma modelGateBlocked_eq_false (mReg : Option (List ModelRecord)) (n : String)
    (h : modelGateOk mReg n) : modelGateBlocked mReg n = false := by
  cases mReg with
  | none => rfl
  | some reg => simp [modelGateBlocked, h reg rfl]

/-- A passing prompt gate never blocks. -/
lemma promptGateBlocked_eq_false (pReg : Option (List PromptRecord)) (n : String)
    (h : promptGateOk pReg n) : promptGateBlocked pReg n = false := by
  cases pReg with
  | none => rfl
  | some reg => simp [promptGateBlocked, h reg rfl]

/-- On a cache miss with both gates passing, the engine trace is the
idempotency read followed by the stage chain with the success suffix. -/
lemma runEngine_gatesPass {σ : Type} (store : Option (String → Option σ))
    (mReg : Option (List ModelRecord)) (pReg : Option (List PromptRecord))
    (mn pn wf : String) (stages : List (String × (σ → Except Exc σ)))
    (eid t c : String) (s : σ)
    (hs : storeMissAt store eid) (hm : modelGateOk mReg mn) (hp : promptGateOk pReg pn) :
    runEngine store mReg pReg mn pn wf stages eid t c s =
      getMissEvents store eid ++ runStages wf (successFin store eid) stages s := by
  have hmb := modelGateBlocked_eq_false mReg mn hm
  have hpb := promptGateBlocked_eq_false pReg pn hp
  cases store with
  | none => simp [runEngine, runBody, hmb, hpb, getMissEvents]
  | some g =>
    have hg := hs g rfl
    simp [runEngine, hg, runBody, hmb, hpb, getMissEvents]

/-- On a cache miss, a configured but unapproving model registry makes the
engine emit the governance audit and raise, with no further effect. -/
lemma runEngine_modelBlocked {σ : Type} (store : Option (String → Option σ))
    (reg : List ModelRecord) (pReg : Option (List PromptRecord))
    (mn pn wf : String) (stages : List (String × (σ → Except Exc σ)))
    (eid t c : String) (s : σ)
    (hs : storeMissAt store eid) (hb : modelIsApproved reg mn = false) :
    runEngine store (some reg) pReg mn pn wf stages eid t c s =
      getMissEvents store eid ++
        [EngineEvent.logAction (govAudit t c "model" mn),
         EngineEvent.raise (Exc.modelNotApprovedError ("unapproved model: " ++ mn))] := by
  cases store with
  | none => simp [runEngine, runBody, modelGateBlocked, hb, getMissEvents]
  | some g =>
    have hg := hs g rfl
    simp [runEngine, hg, runBody, modelGateBlocked, hb, getMissEvents]

/-- On a cache miss with the model gate passing, a configured but
unapproving prompt registry makes the engine emit the governance audit
and raise. -/
lemma runEngine_promptBlocked {σ : Type} (store : Option (String → Option σ))
    (mReg : Option (List ModelRecord)) (preg : List PromptRecord)
    (mn pn wf : String) (stages : List (String × (σ → Except Exc σ)))
    (eid t c : String) (s : σ)
    (hs : storeMissAt store eid) (hm : modelGateOk mReg mn)
    (hb : promptIsApproved preg pn = false) :
    runEngine store mReg (some preg) mn pn wf stages eid t c s =
      getMissEvents store eid ++
        [EngineEvent.logAction (govAudit t c "prompt" pn),
         EngineEvent.raise (Exc.promptNotApprovedError ("unapproved prompt: " ++ pn))] := by
  have hmb := modelGateBlocked_eq_false mReg mn hm
  cases store with
  | none => simp [runEngine, runBody, hmb, promptGateBlocked, hb, getMissEvents]
  | some g =>
    have hg := hs g rfl
    simp [runEngine, hg, runBody, hmb, promptGateBlocked, hb, getMissEvents]

/-! ## Claim theorems -/

/-- C3: for every event entity and every pair of statuses, transition_to
succeeds and sets the status iff the pair is in the section-3 matrix;
otherwise it raises InvalidStatusTransition with both status names in the
message and leaves the entity status unchanged. -/
theorem status_transition_matrix_c3 (ev : BaseEvent) (t : EventStatus) :
    ((transition_to ev t).error = none ↔ statusMatrixSpec ev.status t = true)
    ∧ (statusMatrixSpec ev.status t = true →
        transition_to ev t = { error := none, event := { ev with status := t } })
    ∧ (statusMatrixSpec ev.status t = false →
        transition_to ev t =
            { error := some (transitionErrMsg ev.status t), event := ev }
          ∧ strContains (transitionErrMsg ev.status t) (statusValue ev.status) = true
          ∧ strContains (transitionErrMsg ev.status t) (statusValue t) = true) := by
  have hmem := mem_allowed_iff_spec ev.status t
  cases hspec : statusMatrixSpec ev.status t with
  | false =>
    have hnot : t ∉ allowed_transitions ev.status := by
      intro hmemt
      rw [hmem.mp hmemt] at hspec
      cases hspec
    refine ⟨?_, ?_, ?_⟩
    · simp [transition_to, hnot]
    · intro h; cases h
    · intro _
      exact ⟨by simp [transition_to, hnot],
        (errMsg_contains ev.status t).1, (errMsg_contains ev.status t).2⟩
  | true =>
    have hin : t ∈ allowed_transitions ev.status := hmem.mpr hspec
    refine ⟨?_, ?_, ?_⟩
    · simp [transition_to, hin]
    · intro _; simp [transition_to, hin]
    · intro h; cases h

/-- A concrete event in RECEIVED status, as built by the tests. -/
def exReceivedEvent : BaseEvent :=
  { event_id := "evt-1", tenant_id := "t1", status := EventStatus.received,
    created_at := 0, metadata := none }

/-- C3 witness: one allowed transition (RECEIVED to VALIDATED) updates the
status, and one blocked transition (RECEIVED to APPROVED) raises with
both names in the message, at a concrete event. -/
theorem status_transition_matrix_c3_witness :
    transition_to exReceivedEvent EventStatus.validated =
      { error := none, event := { exReceivedEvent with status := EventStatus.validated } }
    ∧ (transition_to exReceivedEvent EventStatus.approved =
        { error := some (transitionErrMsg EventStatus.received EventStatus.approved),
          event := exReceivedEvent }
      ∧ strContains (transitionErrMsg EventStatus.received EventStatus.approved)
          (statusValue EventStatus.received) = true
      ∧ strContains (transitionErrMsg EventStatus.received EventStatus.approved)
          (statusValue EventStatus.approved) = true) :=
  ⟨(status_transition_matrix_c3 exReceivedEvent EventStatus.validated).2.1 (by decide),
   (status_transition_matrix_c3 exReceivedEvent EventStatus.approved).2.2 (by decide)⟩

/-- C4: the risk decision stage is a first-match aggregation, in order
guardrail VIOLATION, policy FAIL, score at least 70, default APPROVED;
the policy stage fails exactly on category sensitive; and the two test
scenarios (sensitive category, high_risk type) land on REQUIRE_APPROVAL. -/
theorem risk_decision_aggregation_c4 :
    (∀ s : RiskState, (risk_decision s).final_decision =
      some (if s.guardrail_result == some "VIOLATION" then "REJECTED"
        else if s.policy_result == some "FAIL" then "REQUIRE_APPROVAL"
        else if (70 : ℚ) ≤ s.risk_score.getD 0 then "REQUIRE_APPROVAL"
        else "APPROVED"))
    ∧ (∀ s : RiskState, (policy_validation s).policy_result =
        some (if s.raw_event.category == some "sensitive" then "FAIL" else "PASS"))
    ∧ (riskFinal exSensitive).policy_result = some "FAIL"
    ∧ (riskFinal exSensitive).final_decision = some "REQUIRE_APPROVAL"
    ∧ (riskFinal exHighRisk).risk_score = some 85
    ∧ (riskFinal exHighRisk).final_decision = some "REQUIRE_APPROVAL" :=
  ⟨fun _ => rfl, fun _ => rfl, by decide, by decide, by decide, by decide⟩

/-- C5: risk scoring is the deterministic map high_risk to 85, low_risk
to 15, standard or absent to 30, and the guardrail stage yields OK iff
the score is at most 90; scenario S1 gets score 30 and guardrail OK. -/
theorem risk_scoring_guardrails_c5 :
    (∀ s : RiskState, (risk_scoring s).risk_score =
      some (if s.raw_event.event_type == some "high_risk" then (85 : ℚ)
        else if s.raw_event.event_type == some "low_risk" then 15 else 30))
    ∧ riskScoreOf (some "standard") = 30
    ∧ riskScoreOf none = 30
    ∧ (∀ s : RiskState, (guardrails s).guardrail_result =
        some (if s.risk_score.getD 0 ≤ 90 then "OK" else "VIOLATION"))
    ∧ (riskFinal exStdNormal).risk_score = some 30
    ∧ (riskFinal exStdNormal).guardrail_result = some "OK"
    ∧ (riskFinal exStdNormal).policy_result = some "PASS"
    ∧ (riskFinal exStdNormal).final_decision = some "APPROVED" :=
  ⟨fun _ => rfl, by decide, by decide, fun _ => rfl,
   by decide, by decide, by decide, by decide⟩

/-- C6: flag_check forces approval_required on non-empty flags and leaves
it alone otherwise; the compliance decision is first-match over
approval_required, then policy FAIL, defaulting to APPROVED; the decision
stage never flips approval_required on; and the two test scenarios (GDPR
flag with low_risk, no flags with low_risk) behave as the tests assert. -/
theorem compliance_semantics_c6 :
    (∀ s : ComplianceState, (flag_check s).approval_required =
      (if s.regulatory_flags.isEmpty then s.approval_required else true))
    ∧ (∀ s : ComplianceState, (compliance_decision s).final_decision =
        some (if s.approval_required then "REQUIRE_APPROVAL"
          else if s.policy_result == some "FAIL" then "REJECTED"
          else "APPROVED"))
    ∧ (∀ s : ComplianceState,
        (compliance_decision s).approval_required = s.approval_required)
    ∧ retOf (runCompliance none none none exGdpr) = some (complianceFinal exGdpr)
    ∧ (complianceFinal exGdpr).final_decision = some "REQUIRE_APPROVAL"
    ∧ (complianceFinal exGdpr).approval_required = true
    ∧ retOf (runCompliance none none none exLowRisk) = some (complianceFinal exLowRisk)
    ∧ (complianceFinal exLowRisk).final_decision = some "APPROVED"
    ∧ (complianceFinal exLowRisk).approval_required = false
    ∧ (complianceFinal exLowRisk).risk_score = some 15 := by
  refine ⟨fun s => rfl, fun s => ?_, fun s => ?_, rfl, by decide, by decide,
    rfl, by decide, by decide, by decide⟩
  · unfold compliance_decision
    by_cases h : s.approval_required
    · simp [h]
    · simp [h]
      split <;> simp
  · unfold compliance_decision
    by_cases h : s.approval_required
    · simp [h]
    · have hf : s.approval_required = false := by simpa using h
      simp [hf]
      split <;> simp

/-- C1: the idempotency and state-store protocol of run. On a cache hit
the trace is exactly one get followed by returning the cached state (no
stage, no set, no audit, no metric); on a miss, or with no store, all
stages execute and the final state is returned, with exactly one set call
carrying the event id and the final state when a store is configured. -/
theorem run_idempotency_protocol_c1 (g : String → Option RiskState)
    (gc : String → Option ComplianceState) (s : RiskState) (cs : ComplianceState) :
    (∀ cached, g s.event_id = some cached →
      runRisk (some g) none none s =
        [EngineEvent.getState s.event_id (some cached), EngineEvent.ret cached])
    ∧ (g s.event_id = none →
      runRisk (some g) none none s =
        EngineEvent.getState s.event_id none :: riskStageStarts ++
          [EngineEvent.metricInc "workflow_execution_count",
           EngineEvent.setState s.event_id (riskFinal s),
           EngineEvent.ret (riskFinal s)])
    ∧ runRisk none none none s =
        riskStageStarts ++
          [EngineEvent.metricInc "workflow_execution_count",
           EngineEvent.ret (riskFinal s)]
    ∧ (∀ cached, gc cs.event_id = some cached →
      runCompliance (some gc) none none cs =
        [EngineEvent.getState cs.event_id (some cached), EngineEvent.ret cached])
    ∧ (gc cs.event_id = none →
      runCompliance (some gc) none none cs =
        EngineEvent.getState cs.event_id none :: complianceStageStarts ++
          [EngineEvent.metricInc "workflow_execution_count",
           EngineEvent.setState cs.event_id (complianceFinal cs),
           EngineEvent.ret (complianceFinal cs)])
    ∧ runCompliance none none none cs =
        complianceStageStarts ++
          [EngineEvent.metricInc "workflow_execution_count",
           EngineEvent.ret (complianceFinal cs)] := by
  refine ⟨?_, ?_, rfl, ?_, ?_, rfl⟩
  · intro cached h
    simp [runRisk, runEngine, h]
  · intro h
    simp only [runRisk, runEngine, h]
    rfl
  · intro cached h
    simp [runCompliance, runEngine, h]
  · intro h
    simp only [runCompliance, runEngine, h]
    rfl

/-- C1 witness: the scenario-S7 cache hit returns the cached state with a
single get and no set, and a miss on the same input executes all five
stages and stores the final state once. -/
theorem run_idempotency_protocol_c1_witness :
    runRisk (some fun _ => some exCachedRisk) none none exRiskInput =
      [EngineEvent.getState "e4" (some exCachedRisk), EngineEvent.ret exCachedRisk]
    ∧ runRisk (some fun _ => none) none none exRiskInput =
      EngineEvent.getState "e4" none :: riskStageStarts ++
        [EngineEvent.metricInc "workflow_execution_count",
         EngineEvent.setState "e4" (riskFinal exRiskInput),
         EngineEvent.ret (riskFinal exRiskInput)]
    ∧ runCompliance (some fun _ => some exCachedCompliance) none none exComplianceInput =
      [EngineEvent.getState "e4" (some exCachedCompliance),
       EngineEvent.ret exCachedCompliance] :=
  ⟨(run_idempotency_protocol_c1 (fun _ => some exCachedRisk) (fun _ => none)
      exRiskInput exComplianceInput).1 exCachedRisk rfl,
   (run_idempotency_protocol_c1 (fun _ => none) (fun _ => none)
      exRiskInput exComplianceInput).2.1 rfl,
   (run_idempotency_protocol_c1 (fun _ => none) (fun _ => some exCachedCompliance)
      exRiskInput exComplianceInput).2.2.2.1 exCachedCompliance rfl⟩

/-- C2: the governance gate. Whenever a configured registry holds no
APPROVED record for the workflow model (or prompt) name, the run trace
after the idempotency read is exactly one GOVERNANCE_VIOLATION log_action
carrying the resource type and name and the state tenant and correlation
ids, followed by the raised ModelNotApprovedError (or
PromptNotApprovedError); the reason contains the word unapproved. -/
theorem governance_gate_protocol_c2 (s : RiskState) (cs : ComplianceState)
    (storeR : Option (String → Option RiskState))
    (storeC : Option (String → Option ComplianceState))
    (mReg : Option (List ModelRecord)) (pReg : Option (List PromptRecord)) :
    (∀ reg, mReg = some reg → modelIsApproved reg "risk-model" = false →
      storeMissAt storeR s.event_id →
      runRisk storeR mReg pReg s =
        getMissEvents storeR s.event_id ++
          [EngineEvent.logAction (govAudit s.tenant_id s.correlation_id "model" "risk-model"),
           EngineEvent.raise (Exc.modelNotApprovedError "unapproved model: risk-model")])
    ∧ (∀ preg, pReg = some preg → promptIsApproved preg "risk-prompt" = false →
      modelGateOk mReg "risk-model" → storeMissAt storeR s.event_id →
      runRisk storeR mReg pReg s =
        getMissEvents storeR s.event_id ++
          [EngineEvent.logAction (govAudit s.tenant_id s.correlation_id "prompt" "risk-prompt"),
           EngineEvent.raise (Exc.promptNotApprovedError "unapproved prompt: risk-prompt")])
    ∧ (∀ reg, mReg = some reg → modelIsApproved reg "compliance-model" = false →
      storeMissAt storeC cs.event_id →
      runCompliance storeC mReg pReg cs =
        getMissEvents storeC cs.event_id ++
          [EngineEvent.logAction
            (govAudit cs.tenant_id cs.correlation_id "model" "compliance-model"),
           EngineEvent.raise (Exc.modelNotApprovedError "unapproved model: compliance-model")])
    ∧ (∀ preg, pReg = some preg → promptIsApproved preg "compliance-prompt" = false →
      modelGateOk mReg "compliance-model" → storeMissAt storeC cs.event_id →
      runCompliance storeC mReg pReg cs =
        getMissEvents storeC cs.event_id ++
          [EngineEvent.logAction
            (govAudit cs.tenant_id cs.correlation_id "prompt" "compliance-prompt"),
           EngineEvent.raise (Exc.promptNotApprovedError "unapproved prompt: compliance-prompt")])
    ∧ (∀ t c rt rid, (govAudit t c rt rid).action = "GOVERNANCE_VIOLATION"
        ∧ (govAudit t c rt rid).tenant_id = t
        ∧ (govAudit t c rt rid).correlation_id = c
        ∧ (govAudit t c rt rid).resource_type = rt
        ∧ (govAudit t c rt rid).resource_id = rid)
    ∧ strContains (govAudit s.tenant_id s.correlation_id "model" "risk-model").reason
        "unapproved" = true
    ∧ strContains (govAudit s.tenant_id s.correlation_id "prompt" "risk-prompt").reason
        "unapproved" = true
    ∧ strContains (govAudit cs.tenant_id cs.correlation_id "model" "compliance-model").reason
        "unapproved" = true
    ∧ strContains (govAudit cs.tenant_id cs.correlation_id "prompt" "compliance-prompt").reason
        "unapproved" = true := by
  refine ⟨?_, ?_, ?_, ?_, fun t c rt rid => ⟨rfl, rfl, rfl, rfl, rfl⟩,
    by simp only [govAudit]; decide, by simp only [govAudit]; decide,
    by simp only [govAudit]; decide, by simp only [govAudit]; decide⟩
  · intro reg hm hb hs
    subst hm
    exact runEngine_modelBlocked storeR reg pReg "risk-model" "risk-prompt" "risk"
      riskStages s.event_id s.tenant_id s.correlation_id s hs hb
  · intro preg hp hb hm hs
    subst hp
    exact runEngine_promptBlocked storeR mReg preg "risk-model" "risk-prompt" "risk"
      riskStages s.event_id s.tenant_id s.correlation_id s hs hm hb
  · intro reg hm hb hs
    subst hm
    exact runEngine_modelBlocked storeC reg pReg "compliance-model" "compliance-prompt"
      "compliance" complianceStages cs.event_id cs.tenant_id cs.correlation_id cs hs hb
  · intro preg hp hb hm hs
    subst hp
    exact runEngine_promptBlocked storeC mReg preg "compliance-model" "compliance-prompt"
      "compliance" complianceStages cs.event_id cs.tenant_id cs.correlation_id cs hs hm hb

/-- C2 witness: a registry holding risk-model only in REGISTERED state
makes the risk run emit the governance audit and raise; an empty prompt
registry does the same for risk-prompt; and the compliance analogue with
compliance-model holds too. -/
theorem governance_gate_protocol_c2_witness :
    runRisk none (some exRegisteredRiskModel) none exHighRisk =
      [EngineEvent.logAction (govAudit "t1" "c3" "model" "risk-model"),
       EngineEvent.raise (Exc.modelNotApprovedError "unapproved model: risk-model")]
    ∧ runRisk none none (some exEmptyPromptReg) exHighRisk =
      [EngineEvent.logAction (govAudit "t1" "c3" "prompt" "risk-prompt"),
       EngineEvent.raise (Exc.promptNotApprovedError "unapproved prompt: risk-prompt")]
    ∧ runCompliance none (some exRegisteredComplianceModel) none exGdpr =
      [EngineEvent.logAction (govAudit "t1" "c1" "model" "compliance-model"),
       EngineEvent.raise (Exc.modelNotApprovedError "unapproved model: compliance-model")]
    ∧ strContains (govAudit "t1" "c3" "model" "risk-model").reason "unapproved" = true :=
  ⟨(governance_gate_protocol_c2 exHighRisk exGdpr none none
      (some exRegisteredRiskModel) none).1 exRegisteredRiskModel rfl (by decide)
      (fun _ hh => Option.noConfusion hh),
   (governance_gate_protocol_c2 exHighRisk exGdpr none none
      none (some exEmptyPromptReg)).2.1 exEmptyPromptReg rfl (by decide)
      (fun _ hh => Option.noConfusion hh) (fun _ hh => Option.noConfusion hh),
   (governance_gate_protocol_c2 exHighRisk exGdpr none none
      (some exRegisteredComplianceModel) none).2.2.1 exRegisteredComplianceModel rfl
      (by decide) (fun _ hh => Option.noConfusion hh),
   (governance_gate_protocol_c2 exHighRisk exGdpr none none
      none none).2.2.2.2.2.1⟩

/-- The risk stage chain always succeeds, producing the composed final
state after the five stage starts. -/
lemma runStages_risk (fin : RiskState → List (EngineEvent RiskState)) (s : RiskState) :
    runStages "risk" fin riskStages s = riskStageStarts ++ fin (riskFinal s) := rfl

/-- The compliance stage chain always succeeds, producing the composed
final state after the three stage starts. -/
lemma runStages_compliance (fin : ComplianceState → List (EngineEvent ComplianceState))
    (s : ComplianceState) :
    runStages "compliance" fin complianceStages s =
      complianceStageStarts ++ fin (complianceFinal s) := rfl

/-- On a miss with passing gates, the risk run returns the final state of
the five-stage chain. -/
lemma retOf_runRisk (store : Option (String → Option RiskState))
    (mReg : Option (List ModelRecord)) (pReg : Option (List PromptRecord))
    (s : RiskState) (hs : storeMissAt store s.event_id)
    (hm : modelGateOk mReg "risk-model") (hp : promptGateOk pReg "risk-prompt") :
    retOf (runRisk store mReg pReg s) = some (riskFinal s) := by
  rw [runRisk, runEngine_gatesPass store mReg pReg "risk-model" "risk-prompt" "risk"
    riskStages s.event_id s.tenant_id s.correlation_id s hs hm hp, runStages_risk]
  cases store <;> rfl

/-- On a miss with passing gates, the compliance run returns the final
state of the three-stage chain. -/
lemma retOf_runCompliance (store : Option (String → Option ComplianceState))
    (mReg : Option (List ModelRecord)) (pReg : Option (List PromptRecord))
    (s : ComplianceState) (hs : storeMissAt store s.event_id)
    (hm : modelGateOk mReg "compliance-model") (hp : promptGateOk pReg "compliance-prompt") :
    retOf (runCompliance store mReg pReg s) = some (complianceFinal s) := by
  rw [runCompliance, runEngine_gatesPass store mReg pReg "compliance-model"
    "compliance-prompt" "compliance" complianceStages s.event_id s.tenant_id
    s.correlation_id s hs hm hp, runStages_compliance]
  cases store <;> rfl

/-- The guardrail result of a full risk chain is always OK: every score
the scoring rule can produce is at most 90. -/
lemma riskFinal_guardrail (s : RiskState) : (riskFinal s).guardrail_result = some "OK" := by
  have h90 := riskScoreOf_le s.raw_event.event_type
  simp [riskFinal, risk_decision, guardrails, risk_scoring, policy_validation,
    retrieve_context, h90]

/-- The policy result of a full compliance chain is always PASS: every
score the compliance policy can produce is below 80. -/
lemma complianceFinal_policy (s : ComplianceState) :
    (complianceFinal s).policy_result = some "PASS" := by
  have h80 := complianceScoreOf_lt s.raw_event.event_type
  simp [complianceFinal, compliance_decision, compliance_policy, flag_check,
    not_le.mpr h80]
  split <;> rfl

/-- C7: with a cache miss and passing gates, neither workflow can reach a
REJECTED decision: the risk guardrail is always OK and the compliance
policy always passes, so both runs end in APPROVED or REQUIRE_APPROVAL. -/
theorem no_rejected_decision_c7 (s : RiskState) (cs : ComplianceState)
    (storeR : Option (String → Option RiskState))
    (storeC : Option (String → Option ComplianceState))
    (mRegR mRegC : Option (List ModelRecord)) (pRegR pRegC : Option (List PromptRecord))
    (hsR : storeMissAt storeR s.event_id) (hmR : modelGateOk mRegR "risk-model")
    (hpR : promptGateOk pRegR "risk-prompt")
    (hsC : storeMissAt storeC cs.event_id) (hmC : modelGateOk mRegC "compliance-model")
    (hpC : promptGateOk pRegC "compliance-prompt") :
    retOf (runRisk storeR mRegR pRegR s) = some (riskFinal s)
    ∧ (riskFinal s).guardrail_result = some "OK"
    ∧ ((riskFinal s).final_decision = some "APPROVED" ∨
        (riskFinal s).final_decision = some "REQUIRE_APPROVAL")
    ∧ retOf (runCompliance storeC mRegC pRegC cs) = some (complianceFinal cs)
    ∧ (complianceFinal cs).policy_result = some "PASS"
    ∧ ((complianceFinal cs).final_decision = some "APPROVED" ∨
        (complianceFinal cs).final_decision = some "REQUIRE_APPROVAL") := by
  refine ⟨retOf_runRisk storeR mRegR pRegR s hsR hmR hpR, riskFinal_guardrail s, ?_,
    retOf_runCompliance storeC mRegC pRegC cs hsC hmC hpC, complianceFinal_policy cs, ?_⟩
  · have h90 := riskScoreOf_le s.raw_event.event_type
    by_cases hc : s.raw_event.category = some "sensitive"
    · right
      simp [riskFinal, risk_decision, guardrails, risk_scoring, policy_validation,
        retrieve_context, h90, hc]
    · by_cases h70 : (70 : ℚ) ≤ riskScoreOf s.raw_event.event_type
      · right
        simp [riskFinal, risk_decision, guardrails, risk_scoring, policy_validation,
          retrieve_context, h90, hc, h70]
      · left
        simp [riskFinal, risk_decision, guardrails, risk_scoring, policy_validation,
          retrieve_context, h90, hc, h70]
  · have h80 := complianceScoreOf_lt cs.raw_event.event_type
    by_cases hfl : cs.regulatory_flags.isEmpty
    · by_cases ha : cs.approval_required
      · right
        simp [complianceFinal, compliance_decision, compliance_policy, flag_check,
          hfl, ha, not_le.mpr h80]
      · left
        simp [complianceFinal, compliance_decision, compliance_policy, flag_check,
          hfl, ha, not_le.mpr h80]
    · right
      simp [complianceFinal, compliance_decision, compliance_policy, flag_check,
        hfl, not_le.mpr h80]

/-- C7 witness: both workflows on their happy-path test inputs end in a
returned state whose decision is APPROVED or REQUIRE_APPROVAL. -/
theorem no_rejected_decision_c7_witness :
    retOf (runRisk none none none exHighRisk) = some (riskFinal exHighRisk)
    ∧ (riskFinal exHighRisk).guardrail_result = some "OK"
    ∧ ((riskFinal exHighRisk).final_decision = some "APPROVED" ∨
        (riskFinal exHighRisk).final_decision = some "REQUIRE_APPROVAL")
    ∧ retOf (runCompliance none none none exLowRisk) = some (complianceFinal exLowRisk)
    ∧ (complianceFinal exLowRisk).policy_result = some "PASS"
    ∧ ((complianceFinal exLowRisk).final_decision = some "APPROVED" ∨
        (complianceFinal exLowRisk).final_decision = some "REQUIRE_APPROVAL") :=
  no_rejected_decision_c7 exHighRisk exLowRisk none none none none none none
    (fun _ hh => Option.noConfusion hh) (fun _ hh => Option.noConfusion hh)
    (fun _ hh => Option.noConfusion hh) (fun _ hh => Option.noConfusion hh)
    (fun _ hh => Option.noConfusion hh) (fun _ hh => Option.noConfusion hh)

/-- The five audit entries a risk run appends, in stage order. -/
def riskTrailEntries (c : String) : List AuditEntry :=
  [⟨"retrieval", "CONTEXT_RETRIEVED", c⟩,
   ⟨"policy_validation", "POLICY_EVALUATED", c⟩,
   ⟨"risk_scoring", "RISK_SCORED", c⟩,
   ⟨"guardrails", "GUARDRAIL_CHECKED", c⟩,
   ⟨"decision", "DECISION_MADE", c⟩]

/-- The risk chain appends exactly the five stage entries to whatever
trail the input state carries, never touching earlier entries. -/
lemma riskFinal_trail (s : RiskState) :
    (riskFinal s).audit_trail = s.audit_trail ++ riskTrailEntries s.correlation_id := by
  simp [riskFinal, risk_decision, guardrails, risk_scoring, policy_validation,
    retrieve_context, riskTrailEntries]

/-- C9: a risk run with no cache hit that completes appends one audit
entry per stage: the returned trail is the input trail plus the five
entries retrieval, policy_validation, risk_scoring, guardrails, decision
in that order, hence exactly five entries from an empty trail. -/
theorem risk_audit_trail_c9 (store : Option (String → Option RiskState))
    (mReg : Option (List ModelRecord)) (pReg : Option (List PromptRecord))
    (s : RiskState) (hs : storeMissAt store s.event_id)
    (hm : modelGateOk mReg "risk-model") (hp : promptGateOk pReg "risk-prompt") :
    retOf (runRisk store mReg pReg s) = some (riskFinal s)
    ∧ (riskFinal s).audit_trail = s.audit_trail ++ riskTrailEntries s.correlation_id
    ∧ (riskTrailEntries s.correlation_id).map AuditEntry.node =
        ["retrieval", "policy_validation", "risk_scoring", "guardrails", "decision"]
    ∧ (s.audit_trail = [] →
        (riskFinal s).audit_trail.length = 5
        ∧ (riskFinal s).audit_trail.map AuditEntry.node =
            ["retrieval", "policy_validation", "risk_scoring", "guardrails", "decision"]) := by
  refine ⟨retOf_runRisk store mReg pReg s hs hm hp, riskFinal_trail s, rfl, ?_⟩
  intro h
  rw [riskFinal_trail s, h]
  exact ⟨rfl, rfl⟩

/-- C9 witness: the audit-trail property at the concrete test input e5
with no store and no registries. -/
theorem risk_audit_trail_c9_witness :
    retOf (runRisk none none none exStdNormal) = some (riskFinal exStdNormal)
    ∧ (riskFinal exStdNormal).audit_trail =
        exStdNormal.audit_trail ++ riskTrailEntries "c1"
    ∧ (riskFinal exStdNormal).audit_trail.length = 5
    ∧ (riskFinal exStdNormal).audit_trail.map AuditEntry.node =
        ["retrieval", "policy_validation", "risk_scoring", "guardrails", "decision"] :=
  ⟨(risk_audit_trail_c9 none none none exStdNormal (fun _ hh => Option.noConfusion hh)
      (fun _ hh => Option.noConfusion hh) (fun _ hh => Option.noConfusion hh)).1,
   (risk_audit_trail_c9 none none none exStdNormal (fun _ hh => Option.noConfusion hh)
      (fun _ hh => Option.noConfusion hh) (fun _ hh => Option.noConfusion hh)).2.1,
   ((risk_audit_trail_c9 none none none exStdNormal (fun _ hh => Option.noConfusion hh)
      (fun _ hh => Option.noConfusion hh) (fun _ hh => Option.noConfusion hh)).2.2.2 rfl).1,
   ((risk_audit_trail_c9 none none none exStdNormal (fun _ hh => Option.noConfusion hh)
      (fun _ hh => Option.noConfusion hh) (fun _ hh => Option.noConfusion hh)).2.2.2 rfl).2⟩

/-- C10: the risk workflow is total over arbitrary event types: for an
event type outside the three known ones the run still completes, the
scoring stage defaults to 30, and workflow_execution_count is incremented
exactly once. -/
theorem risk_total_unknown_type_c10 (s : RiskState)
    (h1 : s.raw_event.event_type ≠ some "high_risk")
    (h2 : s.raw_event.event_type ≠ some "low_risk")
    (h3 : s.raw_event.event_type ≠ some "standard") :
    runRisk none none none s =
      riskStageStarts ++
        [EngineEvent.metricInc "workflow_execution_count",
         EngineEvent.ret (riskFinal s)]
    ∧ retOf (runRisk none none none s) = some (riskFinal s)
    ∧ (riskFinal s).risk_score = some 30
    ∧ countExecIncs (runRisk none none none s) = 1
    ∧ countRaises (runRisk none none none s) = 0 := by
  have hscore : riskScoreOf s.raw_event.event_type = 30 := by
    simp only [riskScoreOf, beq_iff_eq]
    rw [if_neg h1, if_neg h2]
  refine ⟨rfl, rfl, ?_, rfl, rfl⟩
  simp [riskFinal, risk_decision, guardrails, risk_scoring, policy_validation,
    retrieve_context, hscore]

/-- C10 witness: the chaos test input (event type chaos) completes with
score 30 and one execution-count increment. -/
theorem risk_total_unknown_type_c10_witness :
    runRisk none none none exChaos =
      riskStageStarts ++
        [EngineEvent.metricInc "workflow_execution_count",
         EngineEvent.ret (riskFinal exChaos)]
    ∧ retOf (runRisk none none none exChaos) = some (riskFinal exChaos)
    ∧ (riskFinal exChaos).risk_score = some 30
    ∧ countExecIncs (runRisk none none none exChaos) = 1
    ∧ countRaises (runRisk none none none exChaos) = 0 :=
  risk_total_unknown_type_c10 exChaos (by decide) (by decide) (by decide)

/-- When the stage chain raises, the chain trace is the executed stage
starts followed by exactly the failure metric and the re-raise. -/
lemma runStages_error {σ : Type} (wf : String) (fin : σ → List (EngineEvent σ)) :
    ∀ (stages : List (String × (σ → Except Exc σ))) (s : σ) (e : Exc),
      chainEval stages s = Except.error e →
      ∃ pre, runStages wf fin stages s =
          pre ++ [EngineEvent.metricIncLabeled "failure_count"
              [("category", (classify e).value), ("workflow", wf)],
            EngineEvent.raise e]
        ∧ ∀ ev ∈ pre, ∃ n, ev = EngineEvent.stageStart n := by
  intro stages
  induction stages with
  | nil =>
    intro s e h
    simp [chainEval] at h
  | cons hd rest ih =>
    intro s e h
    obtain ⟨n, f⟩ := hd
    cases hf : f s with
    | error e2 =>
      have he2 : e2 = e := by
        simp only [chainEval, hf] at h
        exact (Except.error.injEq e2 e).mp h
      subst he2
      refine ⟨[EngineEvent.stageStart n], ?_, ?_⟩
      · simp [runStages, hf]
      · intro ev hev
        simp at hev
        exact ⟨n, hev⟩
    | ok s2 =>
      have h2 : chainEval rest s2 = Except.error e := by
        simpa only [chainEval, hf] using h
      obtain ⟨pre, hpre, hall⟩ := ih s2 e h2
      refine ⟨EngineEvent.stageStart n :: pre, ?_, ?_⟩
      · simp [runStages, hf, hpre]
      · intro ev hev
        rcases List.mem_cons.mp hev with h1 | h1
        · exact ⟨n, h1⟩
        · exact hall ev h1

/-- C8: any exception raised inside a stage makes the engine increment the
labeled failure_count exactly once, with the classifier category and the
workflow name as labels, and re-raise the same exception to the caller as
the last observable event; the classifier maps DomainValidationError to
VALIDATION_ERROR and IdempotencyConflictError to WORKFLOW_ERROR. -/
theorem stage_failure_protocol_c8 {σ : Type} (store : Option (String → Option σ))
    (mReg : Option (List ModelRecord)) (pReg : Option (List PromptRecord))
    (mn pn wf : String) (stages : List (String × (σ → Except Exc σ)))
    (eid t c : String) (s : σ) (e : Exc)
    (hs : storeMissAt store eid) (hm : modelGateOk mReg mn) (hp : promptGateOk pReg pn)
    (he : chainEval stages s = Except.error e) :
    (∃ pre, runEngine store mReg pReg mn pn wf stages eid t c s =
        pre ++ [EngineEvent.metricIncLabeled "failure_count"
            [("category", (classify e).value), ("workflow", wf)],
          EngineEvent.raise e])
    ∧ countFailureIncs (runEngine store mReg pReg mn pn wf stages eid t c s) = 1
    ∧ countRaises (runEngine store mReg pReg mn pn wf stages eid t c s) = 1
    ∧ (runEngine store mReg pReg mn pn wf stages eid t c s).getLast? =
        some (EngineEvent.raise e)
    ∧ (∀ m, classify (Exc.domainValidationError m) = FailureCategory.VALIDATION_ERROR)
    ∧ (∀ m, classify (Exc.idempotencyConflictError m) = FailureCategory.WORKFLOW_ERROR) := by
  obtain ⟨pre, hpre, hall⟩ := runStages_error wf (successFin store eid) stages s e he
  have heng : runEngine store mReg pReg mn pn wf stages eid t c s =
      (getMissEvents store eid ++ pre) ++
        [EngineEvent.metricIncLabeled "failure_count"
            [("category", (classify e).value), ("workflow", wf)],
          EngineEvent.raise e] := by
    rw [runEngine_gatesPass store mReg pReg mn pn wf stages eid t c s hs hm hp, hpre,
      List.append_assoc]
  have hprezero_f : countFailureIncs (getMissEvents store eid ++ pre) = 0 := by
    rw [countFailureIncs, List.countP_eq_zero]
    intro ev hev
    rcases List.mem_append.mp hev with h1 | h1
    · cases store with
      | none => simp [getMissEvents] at h1
      | some g =>
        simp [getMissEvents] at h1
        subst h1
        simp
    · obtain ⟨n, hn⟩ := hall ev h1
      subst hn
      simp
  have hprezero_r : countRaises (getMissEvents store eid ++ pre) = 0 := by
    rw [countRaises, List.countP_eq_zero]
    intro ev hev
    rcases List.mem_append.mp hev with h1 | h1
    · cases store with
      | none => simp [getMissEvents] at h1
      | some g =>
        simp [getMissEvents] at h1
        subst h1
        simp
    · obtain ⟨n, hn⟩ := hall ev h1
      subst hn
      simp
  refine ⟨⟨getMissEvents store eid ++ pre, heng⟩, ?_, ?_, ?_, fun m => rfl, fun m => rfl⟩
  · rw [heng, countFailureIncs, List.countP_append]
    rw [countFailureIncs] at hprezero_f
    rw [hprezero_f]
    rfl
  · rw [heng, countRaises, List.countP_append]
    rw [countRaises] at hprezero_r
    rw [hprezero_r]
    rfl
  · rw [heng]
    have : (getMissEvents store eid ++ pre) ++
        [EngineEvent.metricIncLabeled "failure_count"
            [("category", (classify e).value), ("workflow", wf)],
          EngineEvent.raise (σ := σ) e] =
        ((getMissEvents store eid ++ pre) ++
          [EngineEvent.metricIncLabeled "failure_count"
              [("category", (classify e).value), ("workflow", wf)]]) ++
          [EngineEvent.raise e] := by
      simp
    rw [this, List.getLast?_concat]

/-- The chaos-injected stage list: retrieval replaced by a stage raising
DomainValidationError, as in the chaos test. -/
def chaosStages : List (String × (RiskState → Except Exc RiskState)) :=
  ("retrieval",
    fun _ => Except.error
      (Exc.domainValidationError "chaos injection: simulated node failure")) ::
    riskStages.tail

/-- C8 witness: the chaos-injected risk run records exactly one
failure_count increment labeled VALIDATION_ERROR and risk, and its last
event is the re-raised DomainValidationError. -/
theorem stage_failure_protocol_c8_witness :
    countFailureIncs (runEngine none none none "risk-model" "risk-prompt" "risk"
        chaosStages "chaos-fail-1" "t1" "c1" exChaos) = 1
    ∧ countRaises (runEngine none none none "risk-model" "risk-prompt" "risk"
        chaosStages "chaos-fail-1" "t1" "c1" exChaos) = 1
    ∧ (runEngine none none none "risk-model" "risk-prompt" "risk"
        chaosStages "chaos-fail-1" "t1" "c1" exChaos).getLast? =
      some (EngineEvent.raise
        (Exc.domainValidationError "chaos injection: simulated node failure"))
    ∧ classify (Exc.domainValidationError "x") = FailureCategory.VALIDATION_ERROR
    ∧ classify (Exc.idempotencyConflictError "x") = FailureCategory.WORKFLOW_ERROR :=
  have h := stage_failure_protocol_c8 none none none "risk-model" "risk-prompt" "risk"
    chaosStages "chaos-fail-1" "t1" "c1" exChaos
    (Exc.domainValidationError "chaos injection: simulated node failure")
    (fun _ hh => Option.noConfusion hh) (fun _ hh => Option.noConfusion hh)
    (fun _ hh => Option.noConfusion hh) rfl
  ⟨h.2.1, h.2.2.1, h.2.2.2.1, h.2.2.2.2.1 "x", h.2.2.2.2.2 "x"⟩

end AiRiskEngine
